import Mathlib

/-!
Shallow embedding of the Tokyo Escape game core: the hybrid puzzle and
judgment engine (gemini.js), the stage orchestrator (main.js) and the
speech sequencer (tts.js). Pure functions are translated directly; the
stateful engine is modelled by explicit state passing, and the outcomes of
network calls (cloud model, edge model, speech synthesis) are supplied by
explicit environment values, with Except.error standing for a thrown
exception and Except.ok for a resolved call.
-/

/-! ## String utilities mirroring JavaScript string operations -/

/-- Embedding of the list membership check behind String.prototype.includes:
the pattern occurs as a contiguous infix of the list. -/
def listContains (pat : List Char) (l : List Char) : Bool :=
  match l with
  | [] => pat.isEmpty
  | _ :: rest => pat.isPrefixOf l || listContains pat rest

/-- JavaScript s.includes(pat). -/
def strContains (s pat : String) : Bool :=
  listContains pat.data s.data

/-- JavaScript s.startsWith(pat). -/
def strStarts (s pat : String) : Bool :=
  pat.data.isPrefixOf s.data

/-! ## main.js: calculateRank (lines 451-459) -/

/-- Embedding of calculateRank from main.js lines 451-459.  time is
state.elapsedSeconds, hints is state.totalHintsUsed, both naturals. -/
def calculateRank (time hints : Nat) : String :=
  if hints = 0 ∧ time < 300 then "S"
  else if hints ≤ 2 ∧ time < 600 then "A"
  else if hints ≤ 5 ∧ time < 900 then "B"
  else if time < 1200 then "C"
  else "D"

/-! ## main.js: answer classification in onSendAnswer (lines 495-522) -/

def correctTag : String := "[CORRECT]"

def wrongTag : String := "[WRONG]"

/-- Embedding of the branch condition at main.js line 498:
response.startsWith('[CORRECT]') || response.includes('[CORRECT]'). -/
def classifiedCorrect (response : String) : Bool :=
  strStarts response correctTag || strContains response correctTag

/-- Orchestrator state relevant to answer handling. -/
structure OrchState where
  currentStage : Nat
deriving DecidableEq, Repr

/-- Embedding of the branch of onSendAnswer on the evaluation response
(main.js lines 498-522): on the correct branch the handler awaits speech
and calls advanceStage, which increments state.currentStage (line 383);
otherwise the response is displayed and no advance happens.  The Bool
records whether the handler took the advancing branch. -/
def onSendAnswerAdvance (st : OrchState) (response : String) : OrchState × Bool :=
  if classifiedCorrect response then ({ currentStage := st.currentStage + 1 }, true)
  else (st, false)

/-! ## gemini.js: the GeoAIGameMaster engine -/

/-- Engine state: hasCloudModel models this.cloudModel (set in the
constructor when an API key is present), hybridMode the config flag,
hasChat whether this.chatSession is non-null, hasLocal whether
this.localAiSession is non-null, and the two adaptive difficulty
counters. -/
structure EngineState where
  hasCloudModel : Bool
  hybridMode : Bool
  hasChat : Bool
  hasLocal : Bool
  consecutiveCorrect : Nat
  consecutiveWrong : Nat
deriving DecidableEq, Repr

/-- Environment for init (gemini.js lines 86-113): whether the edge model
(window.ai) is present, its capabilities are readily available and the
session creation succeeds. -/
structure InitEnv where
  edgeReady : Bool
deriving DecidableEq, Repr

/-- Embedding of init (gemini.js lines 86-113): counters reset to 0; the
chat session is started when a cloud model exists; an edge session is
created when hybrid mode is on and the edge model is ready, a failure
being logged and non-fatal. -/
def initEngine (st : EngineState) (env : InitEnv) : EngineState :=
  { st with
      consecutiveWrong := 0
      consecutiveCorrect := 0
      hasChat := if st.hasCloudModel then true else st.hasChat
      hasLocal := if st.hybridMode && env.edgeReady then true else st.hasLocal }

/-- Embedding of updateDifficultyStats (gemini.js lines 233-241):
text.includes('[CORRECT]') decides which counter is incremented; the other
is zeroed. -/
def updateDifficultyStats (st : EngineState) (text : String) : EngineState :=
  if strContains text correctTag then
    { st with consecutiveCorrect := st.consecutiveCorrect + 1, consecutiveWrong := 0 }
  else
    { st with consecutiveWrong := st.consecutiveWrong + 1, consecutiveCorrect := 0 }

/-- Observable suspension events of evaluateAnswer: an edge model prompt, a
cloud sendMessage, and the setTimeout backoff in milliseconds. -/
inductive CallEvent where
  | edgeCall
  | cloudCall
  | sleepMs (ms : Nat)
deriving DecidableEq, Repr

/-- Environment for one evaluateAnswer call: the edge verdict (ok carries
the returned string, error a thrown exception) and the two possible cloud
attempts (ok carries the text already extracted by extractResponseText,
which may be empty). -/
structure EvalEnv where
  edge : Except Unit String
  cloud0 : Except Unit String
  cloud1 : Except Unit String

def connectionLostMsg : String := "[WRONG] [AXIOM] 神経リンク切断。再接続を試みよ。"

def unstableMsg : String := "[WRONG] [AXIOM] データストリーム不安定。回答を再送信せよ。"

/-- The acceptance test on a cloud verdict (gemini.js line 221):
text && text.length > 5. -/
def goodVerdict (t : String) : Bool :=
  t ≠ "" && 5 < t.length

/-- Calling this.chatSession.sendMessage when chatSession is null throws
synchronously inside the try block, so a missing chat session behaves like
a failed attempt. -/
def cloudAttemptResult (st : EngineState) (r : Except Unit String) : Except Unit String :=
  if st.hasChat then r else .error ()

/-- The cloud retry loop of evaluateAnswer (gemini.js lines 217-230):
two attempts; a thrown first attempt sleeps 500ms before the retry, a
successful but too-short first attempt retries immediately; pre carries
events emitted before the loop. -/
def cloudCallEv (st : EngineState) : List CallEvent :=
  if st.hasChat then [CallEvent.cloudCall] else []

def evalCloudPhase (st : EngineState) (env : EvalEnv) (pre : List CallEvent) :
    String × EngineState × List CallEvent :=
  match cloudAttemptResult st env.cloud0 with
  | .ok t =>
      if goodVerdict t then (t, updateDifficultyStats st t, pre ++ cloudCallEv st)
      else
        match cloudAttemptResult st env.cloud1 with
        | .ok t2 =>
            if goodVerdict t2 then
              (t2, updateDifficultyStats st t2, pre ++ cloudCallEv st ++ cloudCallEv st)
            else (unstableMsg, st, pre ++ cloudCallEv st ++ cloudCallEv st)
        | .error _ => (unstableMsg, st, pre ++ cloudCallEv st ++ cloudCallEv st)
  | .error _ =>
      match cloudAttemptResult st env.cloud1 with
      | .ok t2 =>
          if goodVerdict t2 then
            (t2, updateDifficultyStats st t2,
             pre ++ cloudCallEv st ++ [.sleepMs 500] ++ cloudCallEv st)
          else (unstableMsg, st, pre ++ cloudCallEv st ++ [.sleepMs 500] ++ cloudCallEv st)
      | .error _ => (unstableMsg, st, pre ++ cloudCallEv st ++ [.sleepMs 500] ++ cloudCallEv st)

/-- Embedding of evaluateAnswer (gemini.js lines 194-231).  Returns the
response text, the updated engine state and the list of suspension events
in order. -/
def evaluateAnswer (st : EngineState) (env : EvalEnv) :
    String × EngineState × List CallEvent :=
  if !st.hasChat && !st.hasLocal then (connectionLostMsg, st, [])
  else if st.hasLocal then
    match env.edge with
    | .ok r => (r, updateDifficultyStats st r, [.edgeCall])
    | .error _ => evalCloudPhase st env [.edgeCall]
  else evalCloudPhase st env []

/-- Folding a sequence of evaluateAnswer calls over the engine state. -/
def runEval (st : EngineState) (envs : List EvalEnv) : EngineState :=
  envs.foldl (fun s e => (evaluateAnswer s e).2.1) st

/-- The DifficultyState invariant: at most one counter is non-zero. -/
def notBothNonzero (st : EngineState) : Prop :=
  st.consecutiveCorrect = 0 ∨ st.consecutiveWrong = 0

/-! ## gemini.js: puzzle generation, hints, narration, ending -/

/-- A stage as consumed by the engine: id, display name, difficulty and
the free-text puzzle context. -/
structure Stage where
  id : Nat
  name : String
  difficulty : Nat
  puzzleContext : String
deriving DecidableEq, Repr

def fallbackPuzzle1 : String :=
  "[PUZZLE] [BABEL-01 認証プロトコル] このジャミングタワーの全高は333m。旧世紀、この構造物は何と呼ばれていた？正式名称をデータベースから検索せよ。"

def fallbackPuzzle2 : String :=
  "[PUZZLE] [GINZA-BLOCK 暗号解読] 1932年竣工の時計塔を持つビル。旧名「服部時計店」。現在の名称を特定せよ。"

def fallbackPuzzle3 : String :=
  "[PUZZLE] [SHIBUYA-NEXUS 生体認証] 駅前に設置された犬型モニュメント。この犬種を回答せよ。AXIOMの初期プロトタイプのコードネームでもある。"

def fallbackPuzzle4 : String :=
  "[PUZZLE] [AKIBA-GRID 歴史照合] この電脳街の名称の由来となった神社がある。火除けの神を祀るその神社の名は？"

def fallbackPuzzle5 : String :=
  "[PUZZLE] [AXIOM-CORE 最終認証] 双子の神殿、第一本庁舎。その高さを数値で回答せよ。単位はメートル。"

def fallbackPuzzleGeneric : String := "[PUZZLE] 座標を特定し、回答を入力せよ。"

/-- Embedding of getFallbackPuzzle (gemini.js lines 309-318): a lookup
table keyed by the numeric stage id 1..5, with fallbacks[stage.id] ||
generic for any other id. -/
def getFallbackPuzzle (stage : Stage) : String :=
  if stage.id = 1 then fallbackPuzzle1
  else if stage.id = 2 then fallbackPuzzle2
  else if stage.id = 3 then fallbackPuzzle3
  else if stage.id = 4 then fallbackPuzzle4
  else if stage.id = 5 then fallbackPuzzle5
  else fallbackPuzzleGeneric

/-- Environment for one generatePuzzle call: the init environment used
when the chat session must first be established, the cloud response
(extracted text) and the edge response. -/
structure PuzzleEnv where
  initEnv : InitEnv
  cloud : Except Unit String
  edge : Except Unit String

/-- Acceptance test on the cloud puzzle (gemini.js line 170):
the fallback fires when !text || text.length < 10. -/
def goodPuzzleText (t : String) : Bool :=
  t ≠ "" && 10 ≤ t.length

/-- Acceptance test on the edge puzzle (gemini.js line 182):
localResponse && localResponse.length > 10. -/
def goodEdgePuzzle (t : String) : Bool :=
  t ≠ "" && 10 < t.length

/-- The `if (!this.chatSession) await this.init()` preamble shared by
generatePuzzle, generateNarration and generateEndingStory. -/
def ensureInit (st0 : EngineState) (ienv : InitEnv) : EngineState :=
  if st0.hasChat then st0 else initEngine st0 ienv

/-- Embedding of generatePuzzle (gemini.js lines 157-189): init runs first
when no chat session exists; a good cloud response is returned, an empty or
short one falls straight to the canned fallback; a thrown cloud call tries
the edge model when present and otherwise, or when the edge output is also
bad, uses the canned fallback. -/
def generatePuzzle (st0 : EngineState) (env : PuzzleEnv) (stage : Stage) :
    String × EngineState :=
  match cloudAttemptResult (ensureInit st0 env.initEnv) env.cloud with
  | .ok t =>
      if goodPuzzleText t then (t, ensureInit st0 env.initEnv)
      else (getFallbackPuzzle stage, ensureInit st0 env.initEnv)
  | .error _ =>
      if (ensureInit st0 env.initEnv).hasLocal then
        match env.edge with
        | .ok r =>
            if goodEdgePuzzle r then (r, ensureInit st0 env.initEnv)
            else (getFallbackPuzzle stage, ensureInit st0 env.initEnv)
        | .error _ => (getFallbackPuzzle stage, ensureInit st0 env.initEnv)
      else (getFallbackPuzzle stage, ensureInit st0 env.initEnv)

def hintOfflineMsg : String := "[HINT] システムオフライン。"

def hintFailMsg : String := "[HINT] ヒントのロードに失敗しました..."

/-- Environment for one requestHint call. -/
structure HintEnv where
  cloud : Except Unit String
  edge : Except Unit String

/-- Embedding of requestHint (gemini.js lines 246-264): offline message
when no chat session; on a resolved cloud call the extracted text is
returned verbatim with no length or emptiness check; on a thrown call the
edge model is tried when present, and on total failure a fixed message is
returned. -/
def requestHint (st : EngineState) (env : HintEnv) (hintLevel : Nat) : String :=
  if !st.hasChat then hintOfflineMsg
  else
    match env.cloud with
    | .ok t => t
    | .error _ =>
        if st.hasLocal then
          match env.edge with
          | .ok r => r
          | .error _ => hintFailMsg
        else hintFailMsg

/-- Embedding of getDifficultyModifier performance wording used by
generateNarration (gemini.js lines 272-273). -/
def performanceDescriptor (st : EngineState) : String :=
  if 2 ≤ st.consecutiveCorrect then "好調（連続正解中）"
  else if 2 ≤ st.consecutiveWrong then "苦戦中（連続不正解）"
  else "安定"

/-- The playerStats argument of generateNarration: a JavaScript object
whose hintsUsed and elapsedTime fields may be absent. -/
structure PlayerStats where
  hintsUsed : Option Nat
  elapsedTime : Option Nat
deriving DecidableEq, Repr

/-- The transition prompt composed by generateNarration
(gemini.js lines 275-282); hintsUsed is playerStats.hintsUsed || 0. -/
def narrationPrompt (st : EngineState) (fromS toS : Stage) (hintsUsed : Nat) : String :=
  "[ナレーション生成]\nクリアしたステージ: " ++ fromS.name ++
  "\n次のステージ: " ++ toS.name ++
  "\nプレイヤー状態: " ++ performanceDescriptor st ++
  "\nヒント使用: " ++ toString hintsUsed ++
  "回\n\n上記を踏まえ、AXIOM（都市管理AI）としてプレイヤーに語りかけるサイバーパンク風ナレーション(2-3文)を生成せよ。\n好調なら称賛、苦戦中なら挑発や警告を含めること。"

/-- The deterministic fallback narration (gemini.js line 288). -/
def fallbackNarration (fromS toS : Stage) : String :=
  "[AXIOM] " ++ fromS.name ++ "セクターの突破を確認。次の座標へ転送中... " ++
  toS.name ++ "エリアに接近。"

/-- Environment for narration or ending generation. -/
structure NarrationEnv where
  initEnv : InitEnv
  cloud : Except Unit String

/-- Embedding of the generateNarration method (gemini.js lines 269-290).
Returns the prompt it sends together with the produced text; on a thrown
cloud call the deterministic templated narration is returned; the
elapsedTime field of playerStats is never read. -/
def generateNarrationMethod (st0 : EngineState) (env : NarrationEnv)
    (fromS toS : Stage) (stats : PlayerStats) : String × String :=
  (narrationPrompt (ensureInit st0 env.initEnv) fromS toS (stats.hintsUsed.getD 0),
   match cloudAttemptResult (ensureInit st0 env.initEnv) env.cloud with
   | .ok t => t
   | .error _ => fallbackNarration fromS toS)

/-- Embedding of the module-level proxy export at gemini.js line 332:
generateNarration = (from, to) => gameMasterEngine.generateNarration(from, to).
The arrow function has only two parameters, so any third argument supplied
by a caller is dropped and the method sees the default empty stats. -/
def generateNarrationProxy (st0 : EngineState) (env : NarrationEnv)
    (fromS toS : Stage) : String × String :=
  generateNarrationMethod st0 env fromS toS { hintsUsed := none, elapsedTime := none }

/-- Embedding of the narration request inside advanceStage (main.js lines
397-407): the orchestrator passes an object with hintsUsed :=
state.totalHintsUsed and elapsedTime := state.elapsedSeconds as a third
argument, but the imported generateNarration is the two-parameter proxy,
so the argument never reaches the method. -/
def advanceStageNarration (st0 : EngineState) (env : NarrationEnv)
    (prevStage nextStage : Stage) (totalHintsUsed elapsedSeconds : Nat) :
    String × String :=
  generateNarrationProxy st0 env prevStage nextStage

def fallbackEnding : String := "都市のデータネットワークから解放された。あなたの脱出は完了した。"

/-- Embedding of generateEndingStory (gemini.js lines 295-307): the
extracted text is returned verbatim on success; a thrown call yields the
fixed closing line. -/
def generateEndingStory (st0 : EngineState) (env : NarrationEnv)
    (totalTime : String) (hintsUsed stageCount : Nat) : String :=
  match cloudAttemptResult (ensureInit st0 env.initEnv) env.cloud with
  | .ok t => t
  | .error _ => fallbackEnding

/-! ## tts.js: text cleaning (the regex replaces at lines 19-24 / 43-48) -/

/-- Whitespace as matched by JavaScript String.prototype.trim. -/
def jsSpace (c : Char) : Bool :=
  c = ' ' || c = '\t' || c = '\n' || c = '\r' ||
  c = Char.ofNat 11 || c = Char.ofNat 12 || c = Char.ofNat 160 ||
  c = Char.ofNat 0x3000 || c = Char.ofNat 0xFEFF

def trimChars (l : List Char) : List Char :=
  ((l.dropWhile jsSpace).reverse.dropWhile jsSpace).reverse

/-- Scanner for replace(/\[.*?\]/g, ''): from an opening bracket, buffer
lazily up to the first closing bracket and drop the match; a newline or the
end of input before the closing bracket means no match, so the buffered
text is emitted unchanged (the dot does not match newlines). -/
def stripBracketedGo : List Char → Option (List Char) → List Char
  | [], none => []
  | [], some buf => '[' :: buf.reverse
  | c :: rest, none =>
      if c = '[' then stripBracketedGo rest (some [])
      else c :: stripBracketedGo rest none
  | c :: rest, some buf =>
      if c = ']' then stripBracketedGo rest none
      else if c = '\n' then ('[' :: buf.reverse) ++ '\n' :: stripBracketedGo rest none
      else stripBracketedGo rest (some (c :: buf))

/-- Scanner for replace(/\*\*/g, ''). -/
def removeStars : List Char → List Char
  | '*' :: '*' :: rest => removeStars rest
  | c :: rest => c :: removeStars rest
  | [] => []

/-- Scanner for replace(/<[^>]+>/g, ''): from an opening angle bracket,
one or more non-gt characters followed by gt are dropped; an immediate gt
means no match (the plus requires at least one character). -/
def stripTagsGo : List Char → Option (List Char) → List Char
  | [], none => []
  | [], some buf => '<' :: buf.reverse
  | c :: rest, none =>
      if c = '<' then stripTagsGo rest (some [])
      else c :: stripTagsGo rest none
  | c :: rest, some buf =>
      if c = '>' then
        if buf.isEmpty then '<' :: '>' :: stripTagsGo rest none
        else stripTagsGo rest none
      else stripTagsGo rest (some (c :: buf))

/-- replace(/[>]/g, ''). -/
def removeGtChars (l : List Char) : List Char :=
  l.filter (fun c => c != '>')

/-- The cleaning pipeline applied to speech text in speak and speakAndWait
(tts.js lines 19-24 and 43-48): brackets, double stars, tags, gt, trim. -/
def cleanText (s : String) : String :=
  String.mk (trimChars (removeGtChars (stripTagsGo (removeStars
    (stripBracketedGo s.data none)) none)))

/-! ## tts.js: the speech sequencer state machine

JavaScript is single threaded, so the module runs in synchronous segments
separated by awaits.  Each step below is one such segment acting on the
module state.  pendingSynthesis holds texts whose synthesis fetch is in
flight; playingAudios holds audio elements on which play() was called and
which have not been paused or ended. -/

structure TtsState where
  synthesisAborted : Bool
  audioQueue : List String
  isPlaying : Bool
  currentAudio : Option String
  playingAudios : List String
  pendingSynthesis : List String
deriving DecidableEq, Repr

def ttsInit : TtsState :=
  { synthesisAborted := false, audioQueue := [], isPlaying := false,
    currentAudio := none, playingAudios := [], pendingSynthesis := [] }

/-- Embedding of speak (tts.js lines 16-30) followed by the synchronous
prefix of processQueue (lines 84-91) and of synthesizeAndPlay up to its
fetch (lines 102-107), assuming TTS is enabled and a key is present: the
cleaned text is rejected when empty or shorter than 3; otherwise
synthesisAborted is cleared (line 27), the text is queued, and when
nothing is playing the queue is consumed: isPlaying is set, the head is
shifted and its synthesis begins, clearing synthesisAborted again
(line 104). -/
def speakStep (st : TtsState) (text : String) : TtsState :=
  let clean := cleanText text
  if clean = "" || clean.length < 3 then st
  else
    let st1 := { st with synthesisAborted := false,
                         audioQueue := st.audioQueue ++ [clean] }
    if st1.isPlaying then st1
    else
      match st1.audioQueue with
      | [] => st1
      | item :: rest =>
          { st1 with isPlaying := true, audioQueue := rest,
                     synthesisAborted := false,
                     pendingSynthesis := st1.pendingSynthesis ++ [item] }

/-- Embedding of stopSpeaking (tts.js lines 180-190): sets the abort flag,
clears the queue, clears isPlaying, pauses and drops the current audio. -/
def stopStep (st : TtsState) : TtsState :=
  { st with synthesisAborted := true, audioQueue := [], isPlaying := false,
            playingAudios :=
              match st.currentAudio with
              | some a => st.playingAudios.erase a
              | none => st.playingAudios,
            currentAudio := none }

/-- Embedding of the continuation of synthesizeAndPlay after its awaits
(tts.js lines 127-170), for a fetch that resolves with good audio: the
abort flag is consulted at the post-fetch, post-json and pre-playback
checkpoints (all read the current value of the shared flag); when it is
clear, an audio element is created, stored in currentAudio and played. -/
def fetchResolveStep (st : TtsState) (item : String) : TtsState :=
  if st.pendingSynthesis.contains item = false then st
  else
    let st1 := { st with pendingSynthesis := st.pendingSynthesis.erase item }
    if st1.synthesisAborted then st1
    else { st1 with currentAudio := some item,
                    playingAudios := st1.playingAudios ++ [item] }

/-! ## tts.js: speakAndWait resolution behaviour -/

/-- Possible outcomes of one synthesizeAndPlay run, as determined by the
environment. -/
inductive SynthEnv where
  | fetchThrow
  | notOkStatus
  | noAudioContent
  | abortedDuringFetch
  | playEnded
  | audioElementError
  | playRejected
deriving DecidableEq, Repr

/-- The failure outcomes among SynthEnv: fetch rejection, non-ok HTTP
status, missing audio content, an audio element error event, and a
rejected play() call. -/
def isSynthFailure : SynthEnv → Bool
  | .fetchThrow => true
  | .notOkStatus => true
  | .noAudioContent => true
  | .audioElementError => true
  | .playRejected => true
  | .abortedDuringFetch => false
  | .playEnded => false

inductive PromiseOutcome where
  | fulfilled
  | rejected
  | pending
deriving DecidableEq, Repr

/-- How the promise returned by synthesizeAndPlay (tts.js lines 102-175)
settles in each environment, read off the code branch by branch: a thrown
fetch is absorbed by the try/catch at lines 106 and 171 and the function
returns; a non-ok status returns at line 131; missing audioContent or a
set abort flag return at lines 127, 135 and 141; the inner playback
promise resolves in onended (line 156), onerror (line 163) and the play()
rejection handler (line 168). -/
def synthesizeAndPlayOutcome : SynthEnv → PromiseOutcome
  | .fetchThrow => .fulfilled
  | .notOkStatus => .fulfilled
  | .noAudioContent => .fulfilled
  | .abortedDuringFetch => .fulfilled
  | .playEnded => .fulfilled
  | .audioElementError => .fulfilled
  | .playRejected => .fulfilled

/-- Embedding of speakAndWait (tts.js lines 36-67): resolves immediately
when TTS is disabled, the key is missing, the text is falsy or the cleaned
text is empty or shorter than 3; otherwise resolves in both the then
branch (line 59) and the catch branch (line 62) of synthesizeAndPlay. -/
def speakAndWaitOutcome (ttsEnabled hasApiKey : Bool) (text : String)
    (env : SynthEnv) : PromiseOutcome :=
  if !ttsEnabled || !hasApiKey || text = "" then .fulfilled
  else if cleanText text = "" || (cleanText text).length < 3 then .fulfilled
  else
    match synthesizeAndPlayOutcome env with
    | .fulfilled => .fulfilled
    | .rejected => .fulfilled
    | .pending => .pending

/-! ## Concrete inputs used by counterexamples and witnesses -/

/-- A stage with a known id, used to exercise the canned fallback. -/
def sampleStage3 : Stage :=
  { id := 3, name := "SHIBUYA-NEXUS", difficulty := 3,
    puzzleContext := "駅前の犬型モニュメントのデータ" }

def samplePuzzleEnvAllFail : PuzzleEnv :=
  { initEnv := { edgeReady := true }, cloud := Except.error (), edge := Except.error () }

/-- Engine state with neither a chat session nor an edge session, as after
init when no API key is present and the edge model is unavailable. -/
def stNoSessions : EngineState :=
  { hasCloudModel := false, hybridMode := true, hasChat := false, hasLocal := false,
    consecutiveCorrect := 0, consecutiveWrong := 0 }

/-- Engine state with a chat session only. -/
def stCloudOnly : EngineState :=
  { hasCloudModel := true, hybridMode := false, hasChat := true, hasLocal := false,
    consecutiveCorrect := 0, consecutiveWrong := 0 }

/-- Engine state with both sessions and two consecutive correct answers. -/
def stBothSessions : EngineState :=
  { hasCloudModel := true, hybridMode := true, hasChat := true, hasLocal := true,
    consecutiveCorrect := 2, consecutiveWrong := 0 }

def envAllFail : EvalEnv :=
  { edge := Except.error (), cloud0 := Except.error (), cloud1 := Except.error () }

/-- First cloud attempt resolves but the extracted text is too short
(two characters); the retry then throws. -/
def envShortThenFail : EvalEnv :=
  { edge := Except.error (), cloud0 := Except.ok "短い", cloud1 := Except.error () }

/-- The edge model resolves with a correct verdict. -/
def envEdgeCorrect : EvalEnv :=
  { edge := Except.ok "[CORRECT] 認証成功。セクターを解放する。",
    cloud0 := Except.error (), cloud1 := Except.error () }

/-- The cloud call resolves but extraction yields the empty string. -/
def hintEnvEmptySuccess : HintEnv :=
  { cloud := Except.ok "", edge := Except.error () }

def hintEnvAllFail : HintEnv :=
  { cloud := Except.error (), edge := Except.error () }

/-- A response whose first token is the wrong tag but which mentions the
correct tag later in the text. -/
def wrongThenCorrectResponse : String :=
  "[WRONG] 不正解だ。だが[CORRECT]の判定に近づいている。"

def narrationEnvFail : NarrationEnv :=
  { initEnv := { edgeReady := false }, cloud := Except.error () }

def stagePrevSample : Stage :=
  { id := 1, name := "BABEL-01", difficulty := 2,
    puzzleContext := "東京タワーの建築データ" }

def stageNextSample : Stage :=
  { id := 2, name := "GINZA-BLOCK", difficulty := 3,
    puzzleContext := "和光本館の時計塔データ" }

def ttsTextA : String := "こちらは最初のナレーション本文です"

def ttsTextB : String := "こちらは次のナレーション本文です"

/-- The interleaving forced by calling speak(A), letting its synthesis
fetch suspend, then stopSpeaking() and speak(B) back to back (JavaScript
runs both synchronously, so the pending fetch of A can only resume
afterwards), then resolving the fetch of A and finally the fetch of B. -/
def ttsScenario : TtsState :=
  fetchResolveStep
    (fetchResolveStep
      (speakStep (stopStep (speakStep ttsInit ttsTextA)) ttsTextB)
      (cleanText ttsTextA))
    (cleanText ttsTextB)

/-! ## Helper lemmas (not claim theorems) -/

theorem listContains_of_isPrefixOf (pat l : List Char)
    (h : pat.isPrefixOf l = true) : listContains pat l = true := by
  cases l with
  | nil =>
      cases pat with
      | nil => rfl
      | cons a as => simp [List.isPrefixOf] at h
  | cons c rest =>
      simp only [listContains, Bool.or_eq_true]
      exact Or.inl h

theorem classifiedCorrect_eq_contains (response : String) :
    classifiedCorrect response = strContains response correctTag := by
  unfold classifiedCorrect strStarts strContains
  cases h : List.isPrefixOf correctTag.data response.data with
  | false => simp
  | true => simp [listContains_of_isPrefixOf _ _ h]

theorem notBoth_update (st : EngineState) (t : String) :
    notBothNonzero (updateDifficultyStats st t) := by
  unfold updateDifficultyStats notBothNonzero
  split
  · exact Or.inr rfl
  · exact Or.inl rfl

theorem cloudPhase_result_cases (st : EngineState) (env : EvalEnv) (pre : List CallEvent) :
    ((evalCloudPhase st env pre).1 = unstableMsg ∧ (evalCloudPhase st env pre).2.1 = st) ∨
    (evalCloudPhase st env pre).2.1 =
      updateDifficultyStats st (evalCloudPhase st env pre).1 := by
  unfold evalCloudPhase
  split
  · split
    · exact Or.inr rfl
    · split
      · split
        · exact Or.inr rfl
        · exact Or.inl ⟨rfl, rfl⟩
      · exact Or.inl ⟨rfl, rfl⟩
  · split
    · split
      · exact Or.inr rfl
      · exact Or.inl ⟨rfl, rfl⟩
    · exact Or.inl ⟨rfl, rfl⟩

theorem eval_result_cases (st : EngineState) (env : EvalEnv) :
    ((evaluateAnswer st env).1 = connectionLostMsg ∧ (evaluateAnswer st env).2.1 = st) ∨
    ((evaluateAnswer st env).1 = unstableMsg ∧ (evaluateAnswer st env).2.1 = st) ∨
    (evaluateAnswer st env).2.1 =
      updateDifficultyStats st (evaluateAnswer st env).1 := by
  unfold evaluateAnswer
  split
  · exact Or.inl ⟨rfl, rfl⟩
  · split
    · split
      · exact Or.inr (Or.inr rfl)
      · rcases cloudPhase_result_cases st env [CallEvent.edgeCall] with h | h
        · exact Or.inr (Or.inl h)
        · exact Or.inr (Or.inr h)
    · rcases cloudPhase_result_cases st env [] with h | h
      · exact Or.inr (Or.inl h)
      · exact Or.inr (Or.inr h)

theorem notBoth_eval_step (st : EngineState) (env : EvalEnv)
    (h : notBothNonzero st) : notBothNonzero ((evaluateAnswer st env).2.1) := by
  rcases eval_result_cases st env with ⟨_, hs⟩ | ⟨_, hs⟩ | hs
  · rw [hs]; exact h
  · rw [hs]; exact h
  · rw [hs]; exact notBoth_update st _

theorem runEval_notBoth (envs : List EvalEnv) (st : EngineState)
    (h : notBothNonzero st) : notBothNonzero (runEval st envs) := by
  induction envs generalizing st with
  | nil => exact h
  | cons e rest ih => exact ih _ (notBoth_eval_step st e h)

theorem string_append_ne_empty (a b : String) (ha : a ≠ "") : a ++ b ≠ "" := by
  intro hc
  apply ha
  have hd : (a ++ b).data = ([] : List Char) := by rw [hc]
  rw [String.data_append] at hd
  rcases List.append_eq_nil.mp hd with ⟨h1, _⟩
  cases a with
  | mk l => cases hd2 : l with
    | nil => rfl
    | cons c cs => rw [hd2] at h1; cases h1

theorem goodVerdict_ne_empty (t : String) (h : goodVerdict t = true) : t ≠ "" := by
  simp only [goodVerdict, Bool.and_eq_true, decide_eq_true_eq] at h
  exact h.1

theorem goodPuzzleText_ne_empty (t : String) (h : goodPuzzleText t = true) : t ≠ "" := by
  simp only [goodPuzzleText, Bool.and_eq_true, decide_eq_true_eq] at h
  exact h.1

theorem goodEdgePuzzle_ne_empty (t : String) (h : goodEdgePuzzle t = true) : t ≠ "" := by
  simp only [goodEdgePuzzle, Bool.and_eq_true, decide_eq_true_eq] at h
  exact h.1

theorem getFallbackPuzzle_ne_empty (stage : Stage) : getFallbackPuzzle stage ≠ "" := by
  unfold getFallbackPuzzle
  split_ifs <;> decide

theorem cloudPhase_text_cases (st : EngineState) (env : EvalEnv) (pre : List CallEvent) :
    (evalCloudPhase st env pre).1 = unstableMsg ∨
    goodVerdict ((evalCloudPhase st env pre).1) = true := by
  unfold evalCloudPhase
  split
  · split
    · next h => exact Or.inr h
    · split
      · split
        · next h => exact Or.inr h
        · exact Or.inl rfl
      · exact Or.inl rfl
  · split
    · split
      · next h => exact Or.inr h
      · exact Or.inl rfl
    · exact Or.inl rfl

theorem eval_text_cases (st : EngineState) (env : EvalEnv) :
    (evaluateAnswer st env).1 = connectionLostMsg ∨
    (evaluateAnswer st env).1 = unstableMsg ∨
    env.edge = Except.ok ((evaluateAnswer st env).1) ∨
    goodVerdict ((evaluateAnswer st env).1) = true := by
  unfold evaluateAnswer
  split
  · exact Or.inl rfl
  · split
    · split
      · next heq => exact Or.inr (Or.inr (Or.inl heq))
      · rcases cloudPhase_text_cases st env [CallEvent.edgeCall] with h | h
        · exact Or.inr (Or.inl h)
        · exact Or.inr (Or.inr (Or.inr h))
    · rcases cloudPhase_text_cases st env [] with h | h
      · exact Or.inr (Or.inl h)
      · exact Or.inr (Or.inr (Or.inr h))

/-! ## Claim theorems -/

/-- Claim C1: for every stage s, generatePuzzle returns non-empty text even
when every cloud and edge call fails; for a stage whose id is one of the
known ids 1-5 the fallback is the fixed, stage-specific canned string
(the six fallback strings are pairwise distinct), and for any other id it
is the generic fallback string. -/
theorem C1_fallback (st : EngineState) (stage : Stage) (env : PuzzleEnv)
    (hc : env.cloud = Except.error ()) (he : env.edge = Except.error ()) :
    (generatePuzzle st env stage).1 = getFallbackPuzzle stage ∧
    (generatePuzzle st env stage).1 ≠ "" ∧
    (stage.id = 1 → (generatePuzzle st env stage).1 = fallbackPuzzle1) ∧
    (stage.id = 2 → (generatePuzzle st env stage).1 = fallbackPuzzle2) ∧
    (stage.id = 3 → (generatePuzzle st env stage).1 = fallbackPuzzle3) ∧
    (stage.id = 4 → (generatePuzzle st env stage).1 = fallbackPuzzle4) ∧
    (stage.id = 5 → (generatePuzzle st env stage).1 = fallbackPuzzle5) ∧
    (stage.id ≠ 1 → stage.id ≠ 2 → stage.id ≠ 3 → stage.id ≠ 4 → stage.id ≠ 5 →
       (generatePuzzle st env stage).1 = fallbackPuzzleGeneric) ∧
    List.Pairwise (fun a b => a ≠ b)
      [fallbackPuzzle1, fallbackPuzzle2, fallbackPuzzle3,
       fallbackPuzzle4, fallbackPuzzle5, fallbackPuzzleGeneric] := by
  have hca : cloudAttemptResult (ensureInit st env.initEnv) env.cloud = Except.error () := by
    unfold cloudAttemptResult
    rw [hc, ite_self]
  have hmain : (generatePuzzle st env stage).1 = getFallbackPuzzle stage := by
    unfold generatePuzzle
    rw [hca, he]
    split
    · next heq => exact Except.noConfusion heq
    · split <;> rfl
  refine ⟨hmain, hmain ▸ getFallbackPuzzle_ne_empty stage, ?_, ?_, ?_, ?_, ?_, ?_, by decide⟩
  · intro h; rw [hmain]; simp [getFallbackPuzzle, h]
  · intro h; rw [hmain]; simp [getFallbackPuzzle, h]
  · intro h; rw [hmain]; simp [getFallbackPuzzle, h]
  · intro h; rw [hmain]; simp [getFallbackPuzzle, h]
  · intro h; rw [hmain]; simp [getFallbackPuzzle, h]
  · intro h1 h2 h3 h4 h5; rw [hmain]; simp [getFallbackPuzzle, h1, h2, h3, h4, h5]

/-- Claim C1 witness: with a concrete stage of id 3 and an environment in
which both calls fail, the result is the canned stage-3 puzzle. -/
theorem C1_fallback_witness :
    (generatePuzzle stCloudOnly samplePuzzleEnvAllFail sampleStage3).1 = fallbackPuzzle3 :=
  (C1_fallback stCloudOnly sampleStage3 samplePuzzleEnvAllFail rfl rfl).2.2.2.2.1 rfl

/-- Claim C3: the rank computed at game end follows the bands of
calculateRank exactly (0 hints and under 300s gives S; otherwise at most
2 hints and under 600s gives A; otherwise at most 5 hints and under 900s
gives B; otherwise under 1200s gives C; otherwise D), including the five
concrete examples of the claim. -/
theorem C3_rank_bands :
    calculateRank 250 0 = "S" ∧ calculateRank 500 2 = "A" ∧
    calculateRank 700 5 = "B" ∧ calculateRank 1000 0 = "C" ∧
    calculateRank 1300 0 = "D" ∧
    (∀ time hints, calculateRank time hints = "S" ↔ hints = 0 ∧ time < 300) ∧
    (∀ time hints, calculateRank time hints = "A" ↔
       ¬(hints = 0 ∧ time < 300) ∧ hints ≤ 2 ∧ time < 600) ∧
    (∀ time hints, calculateRank time hints = "B" ↔
       ¬(hints = 0 ∧ time < 300) ∧ ¬(hints ≤ 2 ∧ time < 600) ∧
       hints ≤ 5 ∧ time < 900) ∧
    (∀ time hints, calculateRank time hints = "C" ↔
       ¬(hints = 0 ∧ time < 300) ∧ ¬(hints ≤ 2 ∧ time < 600) ∧
       ¬(hints ≤ 5 ∧ time < 900) ∧ time < 1200) ∧
    (∀ time hints, calculateRank time hints = "D" ↔
       ¬(hints = 0 ∧ time < 300) ∧ ¬(hints ≤ 2 ∧ time < 600) ∧
       ¬(hints ≤ 5 ∧ time < 900) ∧ ¬time < 1200) := by
  refine ⟨by decide, by decide, by decide, by decide, by decide, ?_, ?_, ?_, ?_, ?_⟩ <;>
    intro time hints <;>
    unfold calculateRank <;>
    split_ifs with h1 h2 h3 h4 <;>
    simp_all

/-- Claim C4 counterexample: a response whose first token is the wrong tag
but which mentions the correct tag later in the text is classified correct
by the handler and advances the stage, contradicting the claim that a
wrong-first response never advances. -/
theorem C4_counterexample :
    strStarts wrongThenCorrectResponse wrongTag = true ∧
    strStarts wrongThenCorrectResponse correctTag = false ∧
    (onSendAnswerAdvance { currentStage := 2 } wrongThenCorrectResponse).2 = true ∧
    (onSendAnswerAdvance { currentStage := 2 } wrongThenCorrectResponse).1.currentStage = 3 := by
  decide

/-- Claim C4 (amended): the answer handler classifies a response as correct
and advances exactly when the correct tag occurs anywhere in the response
text; a response not containing the correct tag anywhere is displayed and
the game stays without advancing. -/
theorem C4_amended (st : OrchState) (response : String) :
    ((onSendAnswerAdvance st response).2 = true ↔
       strContains response correctTag = true) ∧
    (strContains response correctTag = false →
       onSendAnswerAdvance st response = (st, false)) := by
  unfold onSendAnswerAdvance
  rw [classifiedCorrect_eq_contains]
  cases h : strContains response correctTag with
  | true => simp [h]
  | false => simp [h]

/-- Claim C4 amended witness: a wrong-only response leaves the state
untouched. -/
theorem C4_amended_witness :
    onSendAnswerAdvance { currentStage := 0 } "[WRONG] 残念、違う。" =
      ({ currentStage := 0 }, false) :=
  (C4_amended { currentStage := 0 } "[WRONG] 残念、違う。").2 (by decide)

/-- Claim C9: for every text passed to speakAndWait, if synthesis or
playback fails (fetch rejection, non-ok response, missing audio content,
audio element error, or rejected play call) the completion promise still
fulfills, exactly as if playback completed normally. -/
theorem C9_resolves (ttsEnabled hasApiKey : Bool) (text : String) (env : SynthEnv)
    (h : isSynthFailure env = true) :
    speakAndWaitOutcome ttsEnabled hasApiKey text env = PromiseOutcome.fulfilled := by
  unfold speakAndWaitOutcome
  split
  · rfl
  · split
    · rfl
    · cases env <;> rfl

/-- Claim C9 witness: a concrete failing synthesis still fulfills. -/
theorem C9_resolves_witness :
    isSynthFailure SynthEnv.fetchThrow = true ∧
    speakAndWaitOutcome true true "テスト音声のナレーションです" SynthEnv.fetchThrow =
      PromiseOutcome.fulfilled :=
  ⟨by decide, C9_resolves true true "テスト音声のナレーションです" SynthEnv.fetchThrow (by decide)⟩

/-- Claim C2 counterexample: stNoSessions is the state produced by init
with no API key and no edge capability; the subsequent evaluateAnswer call
returns a wrong-tagged verdict (first token [WRONG], no correct marker)
yet leaves consecutiveWrong at 0 instead of incrementing it, so the
symmetric wrong-verdict clause of the claim fails on the code. -/
theorem C2_counterexample :
    initEngine stNoSessions { edgeReady := false } = stNoSessions ∧
    strStarts (evaluateAnswer stNoSessions envAllFail).1 wrongTag = true ∧
    strContains (evaluateAnswer stNoSessions envAllFail).1 correctTag = false ∧
    stNoSessions.consecutiveWrong = 0 ∧
    (evaluateAnswer stNoSessions envAllFail).2.1.consecutiveWrong = 0 := by
  decide

/-- Claim C2 (amended): after initSession the two counters are never both
non-zero for any sequence of evaluateAnswer calls; whenever a returned
verdict contains the correct marker the state immediately after has
consecutiveCorrect incremented by one and consecutiveWrong zero; a wrong
verdict behaves symmetrically only when it is produced by an AI
evaluation, that is, when the returned text is neither of the two fixed
fallback responses, which leave both counters unchanged. -/
theorem C2_amended (cfg : EngineState) (ienv : InitEnv) (envs : List EvalEnv)
    (st : EngineState) (env : EvalEnv) :
    notBothNonzero (runEval (initEngine cfg ienv) envs) ∧
    (strContains (evaluateAnswer st env).1 correctTag = true →
       (evaluateAnswer st env).2.1.consecutiveCorrect = st.consecutiveCorrect + 1 ∧
       (evaluateAnswer st env).2.1.consecutiveWrong = 0) ∧
    ((evaluateAnswer st env).1 ≠ connectionLostMsg →
     (evaluateAnswer st env).1 ≠ unstableMsg →
     strContains (evaluateAnswer st env).1 correctTag = false →
       (evaluateAnswer st env).2.1.consecutiveWrong = st.consecutiveWrong + 1 ∧
       (evaluateAnswer st env).2.1.consecutiveCorrect = 0) := by
  refine ⟨runEval_notBoth envs _ (Or.inl rfl), ?_, ?_⟩
  · intro h
    rcases eval_result_cases st env with ⟨h1, _⟩ | ⟨h1, _⟩ | h1
    · rw [h1] at h
      exact absurd h (by decide)
    · rw [h1] at h
      exact absurd h (by decide)
    · rw [h1]
      unfold updateDifficultyStats
      rw [if_pos h]
      exact ⟨rfl, rfl⟩
  · intro hn1 hn2 h
    rcases eval_result_cases st env with ⟨h1, _⟩ | ⟨h1, _⟩ | h1
    · exact absurd h1 hn1
    · exact absurd h1 hn2
    · rw [h1]
      unfold updateDifficultyStats
      rw [if_neg (by simp [h])]
      exact ⟨rfl, rfl⟩

/-- Claim C2 amended witness: in a state with two consecutive correct
answers, an edge verdict containing the correct marker raises the correct
counter to three and keeps the wrong counter at zero. -/
theorem C2_amended_witness :
    (evaluateAnswer stBothSessions envEdgeCorrect).2.1.consecutiveCorrect =
      stBothSessions.consecutiveCorrect + 1 ∧
    (evaluateAnswer stBothSessions envEdgeCorrect).2.1.consecutiveWrong = 0 :=
  (C2_amended stBothSessions { edgeReady := true } [] stBothSessions envEdgeCorrect).2.1
    (by decide)

theorem evaluateAnswer_cloudOnly (st : EngineState) (env : EvalEnv)
    (hL : st.hasLocal = false) (hch : st.hasChat = true) :
    evaluateAnswer st env = evalCloudPhase st env [] := by
  simp [evaluateAnswer, hL, hch]

theorem cloudCallEv_chat (st : EngineState) (hch : st.hasChat = true) :
    cloudCallEv st = [CallEvent.cloudCall] := by
  simp [cloudCallEv, hch]

theorem cloudPhase_bad (st : EngineState) (env : EvalEnv) (pre : List CallEvent)
    (h0 : ∀ t, env.cloud0 = Except.ok t → goodVerdict t = false)
    (h1 : ∀ t, env.cloud1 = Except.ok t → goodVerdict t = false) :
    (evalCloudPhase st env pre).1 = unstableMsg ∧
    (evalCloudPhase st env pre).2.1 = st := by
  unfold evalCloudPhase
  unfold cloudAttemptResult
  by_cases hch : st.hasChat = true
  · rw [if_pos hch, if_pos hch]
    cases hc0 : env.cloud0 with
    | ok t =>
        cases hc1 : env.cloud1 with
        | ok t2 => simp [h0 t hc0, h1 t2 hc1]
        | error e => simp [h0 t hc0]
    | error e =>
        cases hc1 : env.cloud1 with
        | ok t2 => simp [h1 t2 hc1]
        | error e2 => simp
  · rw [if_neg hch, if_neg hch]
    exact ⟨rfl, rfl⟩

theorem cloudPhase_trace_err (st : EngineState) (env : EvalEnv) (pre : List CallEvent)
    (hch : st.hasChat = true) (hc0 : env.cloud0 = Except.error ()) :
    (evalCloudPhase st env pre).2.2 =
      pre ++ [CallEvent.cloudCall, CallEvent.sleepMs 500, CallEvent.cloudCall] := by
  simp only [evalCloudPhase, cloudAttemptResult, hch, if_true, hc0]
  cases hc1 : env.cloud1 with
  | ok t2 =>
      by_cases hg2 : goodVerdict t2 = true <;> simp [hg2, cloudCallEv_chat st hch]
  | error e => simp [cloudCallEv_chat st hch]

theorem cloudPhase_trace_short (st : EngineState) (env : EvalEnv) (pre : List CallEvent)
    (hch : st.hasChat = true) (t : String) (hc0 : env.cloud0 = Except.ok t)
    (hg : goodVerdict t = false) :
    (evalCloudPhase st env pre).2.2 = pre ++ [CallEvent.cloudCall, CallEvent.cloudCall] := by
  simp only [evalCloudPhase, cloudAttemptResult, hch, if_true, hc0]
  cases hc1 : env.cloud1 with
  | ok t2 =>
      by_cases hg2 : goodVerdict t2 = true <;> simp [hg, hg2, cloudCallEv_chat st hch]
  | error e => simp [hg, cloudCallEv_chat st hch]

theorem cloudPhase_good0 (st : EngineState) (env : EvalEnv) (pre : List CallEvent)
    (hch : st.hasChat = true) (t : String) (hc0 : env.cloud0 = Except.ok t)
    (hg : goodVerdict t = true) :
    evalCloudPhase st env pre =
      (t, updateDifficultyStats st t, pre ++ [CallEvent.cloudCall]) := by
  simp [evalCloudPhase, cloudAttemptResult, hch, hc0, hg, cloudCallEv_chat st hch]

/-- Claim C5 counterexample: with a chat session only, a first cloud
attempt that resolves with a too-short verdict is retried with no 500ms
backoff between the two attempts (the suspension trace holds exactly two
cloud calls and no sleep), contradicting the claim that a too-short
attempt is retried after a 500ms backoff. -/
theorem C5_counterexample :
    (evaluateAnswer stCloudOnly envShortThenFail).2.2 =
      [CallEvent.cloudCall, CallEvent.cloudCall] ∧
    CallEvent.sleepMs 500 ∉ (evaluateAnswer stCloudOnly envShortThenFail).2.2 ∧
    (evaluateAnswer stCloudOnly envShortThenFail).1 = unstableMsg := by
  decide

/-- Claim C5 (amended): when no session exists, evaluateAnswer returns the
fixed connection-lost response tagged wrong with no suspension at all; on
the cloud path a thrown attempt is retried exactly once after a 500ms
backoff, a successful but too-short attempt is retried exactly once
immediately with no backoff, a good first attempt is returned with a
single call, and when both attempts fail or are too short the fixed
unstable wrong-tagged fallback is returned with the state unchanged. -/
theorem C5_amended (st : EngineState) (env : EvalEnv) (hL : st.hasLocal = false) :
    (st.hasChat = false → evaluateAnswer st env = (connectionLostMsg, st, [])) ∧
    (st.hasChat = true → env.cloud0 = Except.error () →
       (evaluateAnswer st env).2.2 =
         [CallEvent.cloudCall, CallEvent.sleepMs 500, CallEvent.cloudCall]) ∧
    (st.hasChat = true → ∀ t, env.cloud0 = Except.ok t → goodVerdict t = false →
       (evaluateAnswer st env).2.2 = [CallEvent.cloudCall, CallEvent.cloudCall]) ∧
    (st.hasChat = true → ∀ t, env.cloud0 = Except.ok t → goodVerdict t = true →
       (evaluateAnswer st env).1 = t ∧
       (evaluateAnswer st env).2.2 = [CallEvent.cloudCall]) ∧
    (st.hasChat = true →
     (∀ t, env.cloud0 = Except.ok t → goodVerdict t = false) →
     (∀ t, env.cloud1 = Except.ok t → goodVerdict t = false) →
       (evaluateAnswer st env).1 = unstableMsg ∧ (evaluateAnswer st env).2.1 = st) := by
  refine ⟨?_, ?_, ?_, ?_, ?_⟩
  · intro hch
    simp [evaluateAnswer, hL, hch]
  · intro hch hc0
    rw [evaluateAnswer_cloudOnly st env hL hch,
        cloudPhase_trace_err st env [] hch hc0]
    rfl
  · intro hch t hc0 hg
    rw [evaluateAnswer_cloudOnly st env hL hch,
        cloudPhase_trace_short st env [] hch t hc0 hg]
    rfl
  · intro hch t hc0 hg
    rw [evaluateAnswer_cloudOnly st env hL hch,
        cloudPhase_good0 st env [] hch t hc0 hg]
    exact ⟨rfl, rfl⟩
  · intro hch h0 h1
    rw [evaluateAnswer_cloudOnly st env hL hch]
    exact cloudPhase_bad st env [] h0 h1

/-- Claim C5 amended witness: a thrown first attempt produces the trace
cloud call, 500ms sleep, cloud call. -/
theorem C5_amended_witness :
    (evaluateAnswer stCloudOnly envAllFail).2.2 =
      [CallEvent.cloudCall, CallEvent.sleepMs 500, CallEvent.cloudCall] :=
  (C5_amended stCloudOnly envAllFail rfl).2.1 rfl rfl

/-- Claim C10: when evaluateAnswer exhausts all paths and returns the
fixed unstable total-failure fallback (no edge verdict was obtained and
both cloud attempts failed or were too short), the difficulty counters
consecutiveCorrect and consecutiveWrong are left unchanged. -/
theorem C10_fallback_keeps_counters (st : EngineState) (env : EvalEnv)
    (hSession : st.hasChat = true ∨ st.hasLocal = true)
    (hEdge : st.hasLocal = true → env.edge = Except.error ())
    (h0 : ∀ t, env.cloud0 = Except.ok t → goodVerdict t = false)
    (h1 : ∀ t, env.cloud1 = Except.ok t → goodVerdict t = false) :
    (evaluateAnswer st env).1 = unstableMsg ∧
    (evaluateAnswer st env).2.1 = st ∧
    (evaluateAnswer st env).2.1.consecutiveCorrect = st.consecutiveCorrect ∧
    (evaluateAnswer st env).2.1.consecutiveWrong = st.consecutiveWrong := by
  have hmain : (evaluateAnswer st env).1 = unstableMsg ∧
      (evaluateAnswer st env).2.1 = st := by
    by_cases hl : st.hasLocal = true
    · have he := hEdge hl
      have hred : evaluateAnswer st env = evalCloudPhase st env [CallEvent.edgeCall] := by
        simp [evaluateAnswer, hl, he]
      rw [hred]
      exact cloudPhase_bad st env _ h0 h1
    · have hl' : st.hasLocal = false := by
        cases hbool : st.hasLocal
        · rfl
        · exact absurd hbool hl
      have hch : st.hasChat = true := by
        rcases hSession with h | h
        · exact h
        · exact absurd h hl
      rw [evaluateAnswer_cloudOnly st env hl' hch]
      exact cloudPhase_bad st env [] h0 h1
  exact ⟨hmain.1, hmain.2, by rw [hmain.2], by rw [hmain.2]⟩

/-- Claim C10 witness: with a chat session only and both attempts thrown,
the fallback is returned and the state is unchanged. -/
theorem C10_witness :
    (evaluateAnswer stCloudOnly envAllFail).1 = unstableMsg ∧
    (evaluateAnswer stCloudOnly envAllFail).2.1 = stCloudOnly :=
  have h := C10_fallback_keeps_counters stCloudOnly envAllFail (Or.inl rfl)
    (fun hl => absurd hl (by decide)) (fun t ht => nomatch ht) (fun t ht => nomatch ht)
  ⟨h.1, h.2.1⟩

/-- Claim C6 counterexample: a cloud call that resolves but whose extracted
text is empty makes requestHint return the empty string verbatim, so empty
output is not treated like a failure there and the Engine does leave the
caller without displayable text. -/
theorem C6_counterexample :
    requestHint stCloudOnly hintEnvEmptySuccess 2 = "" := rfl

/-- Claim C6 (amended): generatePuzzle always returns non-empty text,
treating empty or too-short output as failure, and so does the cloud path
of evaluateAnswer; on thrown calls requestHint, generateNarration and
generateEndingStory return fixed non-empty fallbacks; but on a resolved
call these three return the extracted text verbatim even when it is
empty, and the edge path of evaluateAnswer returns the edge verdict
unvalidated, so only calls whose successful output is non-empty are
guaranteed a non-empty result there. -/
theorem C6_amended (st : EngineState) :
    (∀ env stage, (generatePuzzle st env stage).1 ≠ "") ∧
    (∀ env : EvalEnv, (∀ s, env.edge = Except.ok s → s ≠ "") →
       (evaluateAnswer st env).1 ≠ "") ∧
    (∀ env : HintEnv, ∀ lvl, env.cloud = Except.error () → env.edge = Except.error () →
       requestHint st env lvl ≠ "") ∧
    (∀ env : HintEnv, ∀ lvl t, st.hasChat = true → env.cloud = Except.ok t →
       requestHint st env lvl = t) ∧
    (∀ env fromS toS stats, env.cloud = Except.error () →
       (generateNarrationMethod st env fromS toS stats).2 ≠ "") ∧
    (∀ env time hints count, env.cloud = Except.error () →
       generateEndingStory st env time hints count ≠ "") := by
  refine ⟨?_, ?_, ?_, ?_, ?_, ?_⟩
  · intro env stage
    unfold generatePuzzle
    split
    · split
      · next hg => exact goodPuzzleText_ne_empty _ hg
      · exact getFallbackPuzzle_ne_empty stage
    · split
      · split
        · split
          · next hg => exact goodEdgePuzzle_ne_empty _ hg
          · exact getFallbackPuzzle_ne_empty stage
        · exact getFallbackPuzzle_ne_empty stage
      · exact getFallbackPuzzle_ne_empty stage
  · intro env hedge
    rcases eval_text_cases st env with h | h | h | h
    · rw [h]; decide
    · rw [h]; decide
    · exact hedge _ h
    · exact goodVerdict_ne_empty _ h
  · intro env lvl hc he
    unfold requestHint
    rw [hc, he]
    split
    · show hintOfflineMsg ≠ ""
      decide
    · split
      · next heq => exact Except.noConfusion heq
      · split
        · show hintFailMsg ≠ ""
          decide
        · show hintFailMsg ≠ ""
          decide
  · intro env lvl t hch hc
    unfold requestHint
    rw [hc]
    simp [hch]
  · intro env fromS toS stats hc
    have hca : cloudAttemptResult (ensureInit st env.initEnv) env.cloud = Except.error () := by
      unfold cloudAttemptResult
      rw [hc, ite_self]
    unfold generateNarrationMethod
    rw [hca]
    unfold fallbackNarration
    exact string_append_ne_empty _ _ (string_append_ne_empty _ _
      (string_append_ne_empty _ _ (string_append_ne_empty _ _ (by decide))))
  · intro env time hints count hc
    have hca : cloudAttemptResult (ensureInit st env.initEnv) env.cloud = Except.error () := by
      unfold cloudAttemptResult
      rw [hc, ite_self]
    unfold generateEndingStory
    rw [hca]
    decide

/-- Claim C6 amended witness: a total hint failure still yields non-empty
text. -/
theorem C6_amended_witness :
    requestHint stCloudOnly hintEnvAllFail 1 ≠ "" :=
  (C6_amended stCloudOnly).2.2.1 hintEnvAllFail 1 rfl rfl

/-- Claim C7: the code violates the claim.  After speak(A) suspends at its
synthesis fetch, stopSpeaking() sets the abort flag, but the immediately
following speak(B) clears the shared flag again, so when the fetch of A
resumes it passes every abort checkpoint, creates its audio element and
plays: both A and B are playing, the earlier audio is not prevented and
two audio elements are active at once. -/
theorem C7_leaked_audio :
    (stopStep (speakStep ttsInit ttsTextA)).synthesisAborted = true ∧
    (speakStep (stopStep (speakStep ttsInit ttsTextA)) ttsTextB).synthesisAborted = false ∧
    ttsScenario.playingAudios = [cleanText ttsTextA, cleanText ttsTextB] ∧
    2 ≤ ttsScenario.playingAudios.length := by
  decide

set_option maxRecDepth 20000 in
/-- Claim C8: the code violates the claim.  The narration request made by
advanceStage passes totalHintsUsed and elapsedSeconds, but the imported
two-parameter proxy drops them, so the composed prompt is identical for
any stats, always says zero hints used, and never mentions the elapsed
time. -/
theorem C8_stats_dropped :
    advanceStageNarration stCloudOnly narrationEnvFail stagePrevSample stageNextSample 5 700 =
      advanceStageNarration stCloudOnly narrationEnvFail stagePrevSample stageNextSample 0 0 ∧
    strContains
      (advanceStageNarration stCloudOnly narrationEnvFail stagePrevSample stageNextSample 5 700).1
      "ヒント使用: 0回" = true ∧
    strContains
      (advanceStageNarration stCloudOnly narrationEnvFail stagePrevSample stageNextSample 5 700).1
      "ヒント使用: 5回" = false ∧
    strContains
      (advanceStageNarration stCloudOnly narrationEnvFail stagePrevSample stageNextSample 5 700).1
      "700" = false := by
  decide
